import Mathlib

/-!
Verification development for the BGG firmware serial command engine
(`src/firmware/serial_handler.py`, `handle_serial`).

The engine is embedded shallowly:
* Python strings are `List Char` (`Str`); byte streams are `List Nat`.
* The twelve threaded parameters/results of `handle_serial` (buffer, mode,
  filename, file_lines, config, leds, buttons, whammy, user_presets,
  preset_colors) together with the device filesystem form the state `St`.
* External collaborators that the spec declares out of scope (the JSON codec,
  the pin-detection module, hardware setup, the main-module LED routines)
  are modelled as an environment `Env` of pure functions returning
  `Except Str _`; an `Except.error` models the collaborator raising an
  exception with the given message text.
* `serial.write` calls accumulate into an output list, one entry per write.
* `microcontroller.reset()` is modelled as the halt kind `HaltK.reset`
  (the device restarts; the invocation never returns past that point).
* Exception messages produced by built-in operations (UnicodeDecodeError,
  OSError, ValueError) are modelled by fixed stand-in strings: the message
  text of foreign exceptions is outside the embedded semantics, only the
  control flow they cause is modelled.
-/

namespace BGG

/-- Python strings, embedded as character lists. -/
abbrev Str := List Char

/-- Character list of a Lean string literal. -/
def chars (s : String) : Str := s.data

/-- JSON values as produced by the external `json` codec (object member
order is kept, as the CPython codec keeps it). -/
inductive Json where
  | obj (fields : List (Str × Json))
  | arr (items : List Json)
  | str (s : Str)
  | num (n : Int)
  | bool (b : Bool)
  | null

/-- JSON object member lists. -/
abbrev Obj := List (Str × Json)

/-- The modal session state: `mode` in the source is `None`, `"write"` or
`"merge_user"`; `Option Mode` models that. -/
inductive Mode where
  | write
  | merge_user
  deriving DecidableEq, Repr

/-- How a processed byte ends: keep looping (`cont`), an early `return`
from inside the loop (`ret`), or `microcontroller.reset()` (`reset`). -/
inductive HaltK where
  | cont
  | ret
  | reset
  deriving DecidableEq, Repr

/-- An RGB triple as stored into the NeoPixel strip. -/
abbrev Rgb := Int × Int × Int

/-- The button registry: logical button name to the digital value of its
pin object (`buttons[key]["obj"].value`). -/
abbrev Buttons := List (Str × Bool)

/-- The device filesystem: path to file content, latest write first. -/
abbrev Fs := List (Str × Str)

/-- The configuration dictionary (string keys to JSON-ish values). -/
abbrev Config := List (Str × Json)

/-- First-match association lookup (Python `dict.get` / `dict[k]`). -/
def assoc {α : Type} (k : Str) : List (Str × α) → Option α
  | [] => none
  | kv :: t => if kv.1 = k then some kv.2 else assoc k t

/-- Python `dict.get(k)` where the key may itself be `None`
(`config.get(name_map.get(...))`). -/
def cfgGet (c : Config) : Option Str → Option Json
  | none => none
  | some k => assoc k c

/-- Python `dict[k] = v` (replace or append the binding). -/
def cfgSet (c : Config) (k : Str) (v : Json) : Config :=
  (k, v) :: c.filter (fun kv => decide (kv.1 ≠ k))

/-- Read a file: `open(p).read()`, `none` is `OSError` (absent file). -/
def fsRead (fs : Fs) (p : Str) : Option Str := assoc p fs

/-- Write a file: `open(p, "w").write(c)`; first match shadows older writes. -/
def fsWrite (fs : Fs) (p c : Str) : Fs := (p, c) :: fs

/-- Python `str.rstrip("\r\n")`. -/
def pyRstripNL (s : Str) : Str :=
  (s.reverse.dropWhile (fun c => c = '\r' || c = '\n')).reverse

/-- Python `str.strip()` (whitespace at both ends). -/
def pyStrip (s : Str) : Str :=
  ((s.dropWhile Char.isWhitespace).reverse.dropWhile Char.isWhitespace).reverse

/-- Python `str.lower()` (the protocol uses ASCII names). -/
def pyLower (s : Str) : Str := s.map Char.toLower

/-- Python `str.startswith(pat)`: `pyStartsWith pat s`. -/
def pyStartsWith : Str → Str → Bool
  | [], _ => true
  | _ :: _, [] => false
  | p :: ps, c :: cs => decide (p = c) && pyStartsWith ps cs

/-- Python `s.split(sep)` with a single-character separator. -/
def pySplit (sep : Char) : Str → List Str
  | [] => [[]]
  | c :: cs =>
    let r := pySplit sep cs
    if c = sep then [] :: r
    else
      match r with
      | [] => [[c]]
      | h :: t => (c :: h) :: t

/-- Python `s.split(sep, 1)`: the part before the first separator and,
when a separator occurs, the remainder after it. -/
def pySplit1 (sep : Char) : Str → Str × Option Str
  | [] => ([], none)
  | c :: cs =>
    if c = sep then ([], some cs)
    else
      let r := pySplit1 sep cs
      (c :: r.1, r.2)

/-- The text after the first `:` of a line (`line.split(":", 1)[1]`; each
use site is guarded by a `startswith` on a literal that contains a colon,
so the index exists). -/
def afterColon (line : Str) : Str := (pySplit1 ':' line).2.getD []

/-- Digit-string value for `int(...)`; `none` when empty or non-digit. -/
def digitsValAux : Str → Nat → Option Nat
  | [], acc => some acc
  | c :: cs, acc =>
    if c.isDigit then digitsValAux cs (acc * 10 + (c.toNat - 48)) else none

/-- Value of a nonempty all-digit string. -/
def digitsVal : Str → Option Nat
  | [] => none
  | s => digitsValAux s 0

/-- Python `int(s)`: optional surrounding whitespace, optional sign, a
nonempty digit run; anything else raises `ValueError` (the message is a
stand-in for the interpreter's text). -/
def pyInt (s : Str) : Except Str Int :=
  match pyStrip s with
  | '-' :: ds =>
    match digitsVal ds with
    | some n => Except.ok (-(n : Int))
    | none => Except.error (chars "invalid literal for int")
  | '+' :: ds =>
    match digitsVal ds with
    | some n => Except.ok (n : Int)
    | none => Except.error (chars "invalid literal for int")
  | t =>
    match digitsVal t with
    | some n => Except.ok (n : Int)
    | none => Except.error (chars "invalid literal for int")

/-- Python `f-string` rendering of an int. -/
def pyShowInt (i : Int) : Str := (toString i).data

/-- Python `f-string` rendering of a bool (`True` / `False`). -/
def pyShowBool (b : Bool) : Str := chars (if b then "True" else "False")

/-- Python `"\n".join(lines)`. -/
def joinNL (ls : List Str) : Str := List.intercalate ['\n'] ls

/-- Python `f.readlines()` on the given file content: pieces end after
each newline; a last piece without a newline is kept. -/
def readlinesAux : Str → Str → List Str
  | [], acc => if acc = [] then [] else [acc.reverse]
  | c :: cs, acc =>
    if c = '\n' then (acc.reverse ++ ['\n']) :: readlinesAux cs []
    else readlinesAux cs (c :: acc)

/-- All lines of a file content, newline terminators kept. -/
def pyReadlines (s : Str) : List Str := readlinesAux s []

/-- Python truthiness of an optional string (`None` and `""` are falsy). -/
def pyTruthyStr : Option Str → Bool
  | none => false
  | some s => !s.isEmpty

/-- Python truthiness of the `leds` NeoPixel handle: `None` is falsy and
so is a zero-length strip (sequence truthiness via `__len__`). -/
def ledsTruthy : Option (List Rgb) → Bool
  | none => false
  | some l => !l.isEmpty

/-- Length of the strip (`len(leds)`); only evaluated under `ledsTruthy`. -/
def lenLeds : Option (List Rgb) → Nat
  | none => 0
  | some l => l.length

/-- Python list item assignment `l[i] = v` with negative-index support;
`none` models `IndexError`. -/
def listSetPy (l : List Rgb) (i : Int) (v : Rgb) : Option (List Rgb) :=
  if 0 ≤ i ∧ i < (l.length : Int) then some (l.set i.toNat v)
  else if -(l.length : Int) ≤ i ∧ i < 0 then
    some (l.set (l.length - (-i).toNat) v)
  else none

/-- Python `suffix` test `filename.endswith(".json")`. -/
def endsJson (s : Str) : Bool := List.isSuffixOf (chars ".json") s

/-- Python `d.get(k, dflt)` on a parsed JSON value; a non-object raises
`AttributeError` (stand-in message). -/
def jsonGetD (j : Json) (k : Str) (dflt : Json) : Except Str Json :=
  match j with
  | Json.obj fields => Except.ok ((assoc k fields).getD dflt)
  | _ => Except.error (chars "object has no attribute get")

/-- One member of `e` after `e.update(n)`: the value is replaced when `n`
binds the same key. -/
def overrideKV (n : Obj) (kv : Str × Json) : Str × Json :=
  match assoc kv.1 n with
  | some v => (kv.1, v)
  | none => kv

/-- Python `dict.update`: existing keys keep their position and take the
new value; keys only in `n` are appended in order. -/
def dictUpdate (e n : Obj) : Obj :=
  e.map (overrideKV n) ++ n.filter (fun kv => (assoc kv.1 e).isNone)

/-- Python `existing.update(new_data)` on parsed JSON values: both must be
objects; otherwise the call raises (`AttributeError` / `TypeError`
stand-ins; the exotic iterable-of-pairs acceptance of `dict.update` does
not arise for the documents this protocol carries). -/
def pyUpdate (e n : Json) : Except Str Json :=
  match e, n with
  | Json.obj eo, Json.obj no => Except.ok (Json.obj (dictUpdate eo no))
  | Json.obj _, _ => Except.error (chars "update argument must be a mapping")
  | _, _ => Except.error (chars "object has no attribute update")

/-- Modelled from the spec: the external collaborators of the engine
(§1 declares them out of scope, specified only at their interface
boundary in §6) — the `json` codec, `pin_detect`, `hardware.setup_buttons`,
`utils.hex_to_rgb`, the `code` module's LED routines, the analog joystick
inputs and the CPU unique id. Each fallible call returns `Except Str _`;
`Except.error msg` models the collaborator raising an exception whose
message renders as `msg`. -/
structure Env where
  loads : Str → Except Str Json
  dumps : Json → Str
  hexToRgb : Str → Except Str Rgb
  deinitAllButtons : Except Str Unit
  detectPinFn : Str → Except Str (Option Str)
  setupButtons : Config → Except Str Buttons
  saveDetectedPin : Fs → Str → Str → Except Str Fs
  cancelPinDetect : Except Str Unit
  startTiltWave : Except Str Unit
  updateButtonStates : Except Str Unit
  joystickX : Option Int
  joystickY : Option Int
  uidHex : Str

/-- The engine state threaded through `handle_serial`: the twelve returned
values of the source function plus the device filesystem.  `ledsOut` is
the latched strip content, copied from `leds` by each `leds.show()`. -/
structure St where
  buffer : Str
  mode : Option Mode
  filename : Str
  file_lines : List Str
  config : Config
  leds : Option (List Rgb)
  ledsOut : List Rgb
  buttons : Buttons
  whammy : Option Int
  user_presets : Json
  preset_colors : Json
  fs : Fs

/-- An uncaught exception inside line processing: the state and the serial
writes already performed when it was raised, and its message. -/
abbrev Crash := St × List Str × Str

/-- Result of processing one completed line. -/
structure LR where
  st : St
  out : List Str
  halt : HaltK

/-- The `name_map` table of the `PREVIEWLED:` handler. -/
def nameMap : List (Str × Str) :=
  [ (chars "green-fret", chars "GREEN_FRET_led"),
    (chars "green-fret-pressed", chars "GREEN_FRET_led"),
    (chars "green-fret-released", chars "GREEN_FRET_led"),
    (chars "red-fret", chars "RED_FRET_led"),
    (chars "red-fret-pressed", chars "RED_FRET_led"),
    (chars "red-fret-released", chars "RED_FRET_led"),
    (chars "yellow-fret", chars "YELLOW_FRET_led"),
    (chars "yellow-fret-pressed", chars "YELLOW_FRET_led"),
    (chars "yellow-fret-released", chars "YELLOW_FRET_led"),
    (chars "blue-fret", chars "BLUE_FRET_led"),
    (chars "blue-fret-pressed", chars "BLUE_FRET_led"),
    (chars "blue-fret-released", chars "BLUE_FRET_led"),
    (chars "orange-fret", chars "ORANGE_FRET_led"),
    (chars "orange-fret-pressed", chars "ORANGE_FRET_led"),
    (chars "orange-fret-released", chars "ORANGE_FRET_led"),
    (chars "strum-up", chars "STRUM_UP_led"),
    (chars "strum-up-active", chars "STRUM_UP_led"),
    (chars "strum-up-released", chars "STRUM_UP_led"),
    (chars "strum-down", chars "STRUM_DOWN_led"),
    (chars "strum-down-active", chars "STRUM_DOWN_led"),
    (chars "strum-down-released", chars "STRUM_DOWN_led") ]

/-- The `DETECTPIN:` result line for a detected / not-detected pin
(`if detected_pin:` — `None` and the empty string are falsy). -/
def detectResultMsg (name : Str) (dp : Option Str) : Str :=
  match dp with
  | some p =>
    if p = [] then chars "PINDETECT:NONE:" ++ name ++ chars "\n"
    else chars "PINDETECT:DETECTED:" ++ name ++ [':'] ++ p ++ chars "\n"
  | none => chars "PINDETECT:NONE:" ++ name ++ chars "\n"

/-- The `DETECTPIN:<name>` handler: deinit all buttons, announce, probe,
report, rebuild the registry from the configuration, early `return`.
Collaborator exceptions propagate (they are caught only at the top). -/
def detectPinCmd (env : Env) (st : St) (line : Str) : Except Crash LR :=
  let name := pyStrip (afterColon line)
  match env.deinitAllButtons with
  | Except.error e => Except.error (st, [], e)
  | Except.ok _ =>
    let out1 := [chars "PINDETECT:START:" ++ name ++ chars "\n"]
    match env.detectPinFn name with
    | Except.error e => Except.error (st, out1, e)
    | Except.ok dp =>
      let out2 := out1 ++ [detectResultMsg name dp]
      match env.setupButtons st.config with
      | Except.error e => Except.error (st, out2, e)
      | Except.ok bs => Except.ok ⟨{ st with buttons := bs }, out2, HaltK.ret⟩

/-- The `SAVEPIN:<name>:<pin>` handler: its `try` catches everything,
reporting `PINDETECT:SAVED` or `PINDETECT:ERROR`, then early `return`. -/
def savePinCmd (env : Env) (st : St) (line : Str) : LR :=
  match pySplit ':' line with
  | [_, bn, pn] =>
    match env.saveDetectedPin st.fs bn pn with
    | Except.ok fs' =>
      ⟨{ st with fs := fs' },
        [chars "PINDETECT:SAVED:" ++ bn ++ [':'] ++ pn ++ chars "\n"],
        HaltK.ret⟩
    | Except.error e =>
      ⟨st, [chars "PINDETECT:ERROR:" ++ e ++ chars "\n"], HaltK.ret⟩
  | _ =>
    ⟨st, [chars "PINDETECT:ERROR:" ++ chars "not enough values to unpack"
            ++ chars "\n"], HaltK.ret⟩

/-- The `CANCELPINDETECT` handler; a collaborator exception propagates. -/
def cancelPinDetectCmd (env : Env) (st : St) : Except Crash LR :=
  match env.cancelPinDetect with
  | Except.error e => Except.error (st, [], e)
  | Except.ok _ => Except.ok ⟨st, [chars "PINDETECT:CANCELLED\n"], HaltK.ret⟩

/-- The `PREVIEWLED:<name>:<hex>` handler: best-effort, its `try` catches
everything and failures are only logged, never written to serial. -/
def previewLedCmd (env : Env) (st : St) (line : Str) : St × List Str :=
  match pySplit ':' line with
  | [_, led_name, hex_color] =>
    match cfgGet st.config (assoc (pyLower led_name) nameMap) with
    | some iv =>
      if ledsTruthy st.leds then
        match st.leds with
        | some l =>
          match env.hexToRgb hex_color with
          | Except.ok rgb =>
            match iv with
            | Json.num n =>
              match listSetPy l n rgb with
              | some l' => ({ st with leds := some l', ledsOut := l' }, [])
              | none => (st, [])
            | _ => (st, [])
          | Except.error _ => (st, [])
        | none => (st, [])
      else (st, [])
    | none => (st, [])
  | _ => (st, [])

/-- The `READFILE:<name>` handler: emit the file's lines verbatim then
`END`, or an inline error followed by `END` (the `OSError` message is a
stand-in); note the handler mutates the threaded `filename`. -/
def readFileCmd (st : St) (line : Str) : LR :=
  let fn := ['/'] ++ afterColon line
  let st' := { st with filename := fn }
  match fsRead st.fs fn with
  | some content => ⟨st', pyReadlines content ++ [chars "END\n"], HaltK.cont⟩
  | none =>
    ⟨st', [chars "ERROR: No such file: " ++ fn ++ chars "\nEND\n"], HaltK.cont⟩

/-- The `READWHAMMY` handler. -/
def readWhammyCmd (st : St) : LR :=
  match st.whammy with
  | some v => ⟨st, [chars "WHAMMY:" ++ pyShowInt v ++ chars "\n"], HaltK.cont⟩
  | none => ⟨st, [chars "WHAMMY:-1\n"], HaltK.cont⟩

/-- The `READJOYSTICK` handler. -/
def readJoystickCmd (env : Env) (st : St) : LR :=
  match env.joystickX, env.joystickY with
  | some x, some y =>
    ⟨st, [chars "JOYSTICK:X:" ++ pyShowInt x ++ chars ":Y:" ++ pyShowInt y
            ++ chars "\n"], HaltK.cont⟩
  | _, _ => ⟨st, [chars "JOYSTICK:X:-1:Y:-1\n"], HaltK.cont⟩

/-- The `WRITEFILE:<name>` starter: arm the replace-file session. -/
def writeFileStartCmd (st : St) (line : Str) : LR :=
  ⟨{ st with
      filename := ['/'] ++ afterColon line
      file_lines := []
      mode := some Mode.write }, [], HaltK.cont⟩

/-- The `IMPORTUSER` starter: arm the merge session. -/
def importUserStartCmd (st : St) : LR :=
  ⟨{ st with
      filename := chars "/user_presets.json"
      file_lines := []
      mode := some Mode.merge_user }, [], HaltK.cont⟩

/-- The `READPIN:<key>` handler: report the inverted digital value of the
named pin, or `ERR` when the key is unknown. -/
def readPinCmd (st : St) (line : Str) : LR :=
  let key := pyStrip (afterColon line)
  match assoc key st.buttons with
  | some v =>
    ⟨st, [chars "PIN:" ++ key ++ [':'] ++ pyShowInt (if v then 0 else 1)
            ++ chars "\n"], HaltK.cont⟩
  | none => ⟨st, [chars "PIN:" ++ key ++ chars ":ERR\n"], HaltK.cont⟩

/-- The `TILTWAVE` handler: `code.start_tilt_wave()` is not guarded by a
local `try`, so its exception propagates to the top-level handler. -/
def tiltWaveCmd (env : Env) (st : St) : Except Crash LR :=
  match env.startTiltWave with
  | Except.error e => Except.error (st, [], e)
  | Except.ok _ => Except.ok ⟨st, [chars "TILTWAVE:STARTED\n"], HaltK.cont⟩

/-- The guard of the `SETLED` write: `leds and 0 <= i < len(leds) and
0 <= r <= 255 and 0 <= g <= 255 and 0 <= b <= 255`. -/
def setLedCond (o : Option (List Rgb)) (i r g b : Int) : Bool :=
  ledsTruthy o && decide (0 ≤ i) && decide (i < (lenLeds o : Int)) &&
    decide (0 ≤ r) && decide (r ≤ 255) && decide (0 ≤ g) &&
    decide (g ≤ 255) && decide (0 ≤ b) && decide (b ≤ 255)

/-- The `SETLED:<i>:<r>:<g>:<b>` handler: its `try` catches everything;
wrong field count is a format error, a non-integer field is reported as a
command failure, an out-of-range index or channel answers `ERR`, and the
valid case writes the pixel, latches, and answers `OK`. -/
def setLedCmd (st : St) (line : Str) : LR :=
  let parts := pySplit ':' line
  if parts.length = 5 then
    match pyInt (parts.getD 1 []) with
    | Except.error e =>
      ⟨st, [chars "ERROR: SETLED command failed: " ++ e ++ chars "\n"],
        HaltK.cont⟩
    | Except.ok i =>
      match pyInt (parts.getD 2 []) with
      | Except.error e =>
        ⟨st, [chars "ERROR: SETLED command failed: " ++ e ++ chars "\n"],
          HaltK.cont⟩
      | Except.ok r =>
        match pyInt (parts.getD 3 []) with
        | Except.error e =>
          ⟨st, [chars "ERROR: SETLED command failed: " ++ e ++ chars "\n"],
            HaltK.cont⟩
        | Except.ok g =>
          match pyInt (parts.getD 4 []) with
          | Except.error e =>
            ⟨st, [chars "ERROR: SETLED command failed: " ++ e ++ chars "\n"],
              HaltK.cont⟩
          | Except.ok b =>
            if setLedCond st.leds i r g b then
              match st.leds with
              | some l =>
                let l' := l.set i.toNat (r, g, b)
                ⟨{ st with leds := some l', ledsOut := l' },
                  [chars "SETLED:" ++ pyShowInt i ++ chars ":OK\n"],
                  HaltK.cont⟩
              | none => ⟨st, [], HaltK.cont⟩
            else
              ⟨st, [chars "SETLED:" ++ pyShowInt i ++ chars ":ERR\n"],
                HaltK.cont⟩
  else ⟨st, [chars "ERROR: Invalid SETLED format\n"], HaltK.cont⟩

/-- The `LEDRESTORE` handler: its `try` catches the collaborator's
exception and reports it inline. -/
def ledRestoreCmd (env : Env) (st : St) : LR :=
  match env.updateButtonStates with
  | Except.ok _ => ⟨st, [chars "LEDRESTORE:OK\n"], HaltK.cont⟩
  | Except.error e =>
    ⟨st, [chars "ERROR: LED restore failed: " ++ e ++ chars "\n"], HaltK.cont⟩

/-- The truthy literal set of `TILTWAVE_ENABLE:<bool-ish>`. -/
def truthyWords : List Str :=
  [chars "true", chars "1", chars "yes", chars "on"]

/-- The `TILTWAVE_ENABLE:<bool-ish>` handler: store the flag in the
configuration and acknowledge with the Python rendering of the bool. -/
def tiltWaveEnableCmd (st : St) (line : Str) : LR :=
  let enabled := decide (pyLower (pyStrip (afterColon line)) ∈ truthyWords)
  ⟨{ st with
      config := cfgSet st.config (chars "tilt_wave_enabled")
        (Json.bool enabled) },
    [chars "TILTWAVE_ENABLE:" ++ pyShowBool enabled ++ chars "\n"],
    HaltK.cont⟩

/-- `END` of a `WRITEFILE` session.  A `.json` target is parsed first
(failure reaches the branch's `except`, the file is not written); on
success the raw payload plus a newline is written and acknowledged.  A
`/user_presets.json` target then refreshes the in-memory caches; a
`/config.json` target releases the hardware and hard-resets the device
(so the trailing `mode`/`file_lines` reset of the source never runs).  A
non-`.json` target is written without any serial acknowledgement. -/
def writeEndCmd (env : Env) (st : St) : LR :=
  let raw := joinNL st.file_lines
  if endsJson st.filename then
    match env.loads raw with
    | Except.error e =>
      ⟨{ st with mode := none, file_lines := [] },
        [chars "ERROR: Failed to write " ++ st.filename ++ chars ": " ++ e
          ++ chars "\n"], HaltK.cont⟩
    | Except.ok parsed =>
      let st1 := { st with fs := fsWrite st.fs st.filename (raw ++ ['\n']) }
      let out1 := [chars "✅ File " ++ st.filename ++ chars " written\n"]
      if st.filename = chars "/user_presets.json" then
        match jsonGetD parsed (chars "NewUserPreset1") (Json.obj []) with
        | Except.ok pc =>
          ⟨{ st1 with
              user_presets := parsed
              preset_colors := pc
              mode := none
              file_lines := [] }, out1, HaltK.cont⟩
        | Except.error e =>
          ⟨{ st1 with user_presets := parsed, mode := none, file_lines := [] },
            out1 ++ [chars "ERROR: Failed to write " ++ st.filename
              ++ chars ": " ++ e ++ chars "\n"], HaltK.cont⟩
      else if st.filename = chars "/config.json" then
        ⟨st1, out1, HaltK.reset⟩
      else
        ⟨{ st1 with mode := none, file_lines := [] }, out1, HaltK.cont⟩
  else
    ⟨{ st with
        fs := fsWrite st.fs st.filename (raw ++ ['\n'])
        mode := none
        file_lines := [] }, [], HaltK.cont⟩

/-- A line while in the replace-file session: `END` finishes, anything
else is buffered. -/
def writeModeStep (env : Env) (st : St) (line : Str) : LR :=
  if line = chars "END" then writeEndCmd env st
  else ⟨{ st with file_lines := st.file_lines ++ [line] }, [], HaltK.cont⟩

/-- The existing document for the merge: read and parse the target file,
treating an absent or unparsable file as the empty mapping (the handler's
inner `try`). -/
def readExisting (env : Env) (st : St) : Json :=
  match fsRead st.fs st.filename with
  | none => Json.obj []
  | some c =>
    match env.loads c with
    | Except.ok j => j
    | Except.error _ => Json.obj []

/-- `END` of an `IMPORTUSER` session: parse the payload, merge it over the
existing document (new values win), write the merged document back,
refresh the caches and acknowledge; any failure is reported inline and
the session still resets to idle. -/
def mergeEndCmd (env : Env) (st : St) : LR :=
  match env.loads (joinNL st.file_lines) with
  | Except.error e =>
    ⟨{ st with mode := none, file_lines := [] },
      [chars "ERROR: " ++ e ++ chars "\n"], HaltK.cont⟩
  | Except.ok new_data =>
    match pyUpdate (readExisting env st) new_data with
    | Except.error e =>
      ⟨{ st with mode := none, file_lines := [] },
        [chars "ERROR: " ++ e ++ chars "\n"], HaltK.cont⟩
    | Except.ok merged =>
      let st1 := { st with
        fs := fsWrite st.fs st.filename (env.dumps merged ++ ['\n'])
        user_presets := merged }
      match jsonGetD merged (chars "NewUserPreset1") (Json.obj []) with
      | Except.ok pc =>
        ⟨{ st1 with preset_colors := pc, mode := none, file_lines := [] },
          [chars "✅ Merged into " ++ st.filename ++ chars "\n"], HaltK.cont⟩
      | Except.error e =>
        ⟨{ st1 with mode := none, file_lines := [] },
          [chars "ERROR: " ++ e ++ chars "\n"], HaltK.cont⟩

/-- A line while in the merge session: `END` finishes, anything else is
buffered. -/
def mergeModeStep (env : Env) (st : St) (line : Str) : LR :=
  if line = chars "END" then mergeEndCmd env st
  else ⟨{ st with file_lines := st.file_lines ++ [line] }, [], HaltK.cont⟩

/-- The `REBOOTBOOTSEL` handler: acknowledge, arm the UF2 run mode and
reset (the acknowledgement keeps the source's leading space). -/
def rebootBootselCmd (st : St) : LR :=
  ⟨st, [chars " Rebooting to BOOTSEL mode...\n"], HaltK.reset⟩

/-- The `REBOOT` handler: acknowledge and reset. -/
def rebootCmd (st : St) : LR :=
  ⟨st, [chars "Rebooting...\n"], HaltK.reset⟩

/-- The `READUID` handler: the uppercase-hex CPU id then `END`. -/
def readUidCmd (env : Env) (st : St) : LR :=
  ⟨st, [env.uidHex ++ chars "\nEND\n"], HaltK.cont⟩

/-- The idle-mode fallback: a duplicated (unreachable earlier branch
shadows it) `READPIN:` case, else the generic unknown-command error. -/
def fallbackCmd (st : St) (line : Str) : LR :=
  if pyStartsWith (chars "READPIN:") line then readPinCmd st line
  else ⟨st, [chars "ERROR: Unknown command\n"], HaltK.cont⟩

/-- The idle test `mode is None`. -/
def isIdle (st : St) : Bool := st.mode.isNone

/-- The `elif` chain that follows the always-handled `PREVIEWLED` block,
in source order.  The final catch-all (no branch applies and the mode is
not idle and not one of the two known sessions) cannot occur for the
mode values this engine produces and does nothing, like the source. -/
def dispatchChain (env : Env) (st : St) (line : Str) : Except Crash LR :=
  if isIdle st && pyStartsWith (chars "READFILE:") line then
    Except.ok (readFileCmd st line)
  else if isIdle st && decide (line = chars "READWHAMMY") then
    Except.ok (readWhammyCmd st)
  else if isIdle st && decide (line = chars "READJOYSTICK") then
    Except.ok (readJoystickCmd env st)
  else if isIdle st && pyStartsWith (chars "WRITEFILE:") line then
    Except.ok (writeFileStartCmd st line)
  else if isIdle st && decide (line = chars "IMPORTUSER") then
    Except.ok (importUserStartCmd st)
  else if isIdle st && pyStartsWith (chars "READPIN:") line then
    Except.ok (readPinCmd st line)
  else if isIdle st && decide (line = chars "TILTWAVE") then
    tiltWaveCmd env st
  else if isIdle st && pyStartsWith (chars "SETLED:") line then
    Except.ok (setLedCmd st line)
  else if isIdle st && decide (line = chars "LEDRESTORE") then
    Except.ok (ledRestoreCmd env st)
  else if isIdle st && pyStartsWith (chars "TILTWAVE_ENABLE:") line then
    Except.ok (tiltWaveEnableCmd st line)
  else if st.mode = some Mode.write then
    Except.ok (writeModeStep env st line)
  else if st.mode = some Mode.merge_user then
    Except.ok (mergeModeStep env st line)
  else if isIdle st && decide (line = chars "REBOOTBOOTSEL") then
    Except.ok (rebootBootselCmd st)
  else if isIdle st && decide (line = chars "REBOOT") then
    Except.ok (rebootCmd st)
  else if isIdle st && decide (line = chars "READUID") then
    Except.ok (readUidCmd env st)
  else if isIdle st then Except.ok (fallbackCmd st line)
  else Except.ok ⟨st, [], HaltK.cont⟩

/-- Process one completed (already `rstrip`-ped) line: the three
early-return pin commands, then the unconditional `PREVIEWLED` block
(which does not consume the line — the `elif` chain still sees it), then
the chain.  `Except.error` is an uncaught exception reaching the
top-level handler. -/
def processLineCore (env : Env) (st : St) (line : Str) : Except Crash LR :=
  if isIdle st && pyStartsWith (chars "DETECTPIN:") line then
    detectPinCmd env st line
  else if isIdle st && pyStartsWith (chars "SAVEPIN:") line then
    Except.ok (savePinCmd env st line)
  else if isIdle st && decide (line = chars "CANCELPINDETECT") then
    cancelPinDetectCmd env st
  else
    let pre := if pyStartsWith (chars "PREVIEWLED:") line then
        previewLedCmd env st line
      else (st, [])
    match dispatchChain env pre.1 line with
    | Except.ok r => Except.ok ⟨r.st, pre.2 ++ r.out, r.halt⟩
    | Except.error c => Except.error (c.1, pre.2 ++ c.2.1, c.2.2)

/-- Single-byte UTF-8 decode of `byte.decode("utf-8")`: bytes below 0x80
decode to themselves, anything else raises `UnicodeDecodeError` (stand-in
message). -/
def decodeByte (b : Nat) : Except Str Char :=
  if b < 128 then Except.ok (Char.ofNat b) else
    Except.error (chars "invalid start byte")

/-- The top-level crash line `ERROR: Serial crash: {e}`. -/
def crashLine (m : Str) : Str := chars "ERROR: Serial crash: " ++ m ++ chars "\n"

/-- The top-level `except` recovery: clear the line buffer, return the
mode to idle and drop the pending payload. -/
def crashReset (s : St) : St :=
  { s with buffer := [], mode := none, file_lines := [] }

/-- Result of consuming one byte from the serial channel. -/
structure BR where
  st : St
  out : List Str
  halt : HaltK

/-- Consume one byte: a decode failure or an uncaught line-processing
exception hits the top-level handler (error line, full session reset, the
invocation's read loop ends); a newline completes and processes the
buffered line; any other byte is appended to the buffer. -/
def stepByte (env : Env) (s : St) (b : Nat) : BR :=
  match decodeByte b with
  | Except.error m => ⟨crashReset s, [crashLine m], HaltK.ret⟩
  | Except.ok c =>
    if c = '\n' then
      let line := pyRstripNL s.buffer
      match processLineCore env { s with buffer := [] } line with
      | Except.ok r => ⟨r.st, r.out, r.halt⟩
      | Except.error cr => ⟨crashReset cr.1, cr.2.1 ++ [crashLine cr.2.2], HaltK.ret⟩
    else ⟨{ s with buffer := s.buffer ++ [c] }, [], HaltK.cont⟩

/-- One invocation of `handle_serial` with byte budget `max_bytes`: read
up to that many waiting bytes one at a time (`serial.in_waiting` false,
i.e. an exhausted input list, returns immediately — the model's input
list is exactly the waiting bytes, so the `if not byte` re-check of the
source can never fire), stopping early on an in-loop `return`, a device
reset or the top-level `except`.  Returns the new state, the bytes still
waiting, and the serial writes performed. -/
def handle_serial (env : Env) : Nat → St → List Nat → St × List Nat × List Str
  | 0, s, inp => (s, inp, [])
  | _ + 1, s, [] => (s, [], [])
  | f + 1, s, b :: rest =>
    let r := stepByte env s b
    match r.halt with
    | HaltK.cont =>
      let u := handle_serial env f r.st rest
      (u.1, u.2.1, r.out ++ u.2.2)
    | _ => (r.st, rest, r.out)

/-- Repeated invocations of `handle_serial` with a fixed budget `B`,
threading the returned state, until the channel is drained; `fuel` bounds
the number of invocations (each nonempty invocation with `B ≥ 1` consumes
at least one byte, so `inp.length` invocations always suffice). -/
def drainAux (env : Env) (B : Nat) : Nat → St → List Nat → St × List Str
  | 0, s, _ => (s, [])
  | f + 1, s, inp =>
    if inp.isEmpty then (s, [])
    else
      let t := handle_serial env B s inp
      let u := drainAux env B f t.1 t.2.1
      (u.1, t.2.2 ++ u.2)

/-- Feed a byte stream through invocations of budget `B`, threading the
returned state from each call into the next. -/
def drain (env : Env) (B : Nat) (s : St) (inp : List Nat) : St × List Str :=
  drainAux env B inp.length s inp

/-- A complete ASCII command-line body: every byte decodes (is below
0x80) and none is the newline terminator; the full line on the wire is
`bs ++ [10]` (§6: newline-delimited ASCII commands). -/
def AsciiBody (bs : List Nat) : Prop := ∀ b ∈ bs, b < 128 ∧ b ≠ 10

instance : DecidablePred AsciiBody := fun bs =>
  List.decidableBAll (fun b => b < 128 ∧ b ≠ 10) bs

/-- Append decoded bytes to the line buffer. -/
def pushAll (s : St) (bs : List Nat) : St :=
  { s with buffer := s.buffer ++ bs.map Char.ofNat }

/-- The byte stream of an ASCII string. -/
def bytesOf (s : String) : List Nat := s.data.map Char.toNat

/-- The session invariant of the spec's data model: the pending payload
is non-empty only while a payload session is active. -/
def sessionInv (s : St) : Prop := s.file_lines ≠ [] → s.mode ≠ none

/-- A concrete idle engine state used to instantiate theorems. -/
def st0 : St :=
  { buffer := []
    mode := none
    filename := []
    file_lines := []
    config := []
    leds := some [(0, 0, 0), (0, 0, 0), (0, 0, 0)]
    ledsOut := []
    buttons := [(chars "GREEN_FRET", true)]
    whammy := some 512
    user_presets := Json.obj []
    preset_colors := Json.obj []
    fs := [] }

/-- A concrete well-behaved environment used to instantiate theorems
(its JSON decoder rejects everything; claims needing parses override it). -/
def env0 : Env :=
  { loads := fun _ => Except.error (chars "bad json")
    dumps := fun _ => chars "null"
    hexToRgb := fun _ => Except.ok (0, 0, 0)
    deinitAllButtons := Except.ok ()
    detectPinFn := fun _ => Except.ok (some (chars "GP5"))
    setupButtons := fun _ => Except.ok [(chars "GREEN_FRET", true)]
    saveDetectedPin := fun fs _ _ => Except.ok fs
    cancelPinDetect := Except.ok ()
    startTiltWave := Except.ok ()
    updateButtonStates := Except.ok ()
    joystickX := some 100
    joystickY := some 200
    uidHex := chars "AB12CD34" }

/-- An environment whose `code.start_tilt_wave` collaborator raises. -/
def envC2 : Env := { env0 with startTiltWave := Except.error (chars "boom") }

/-- A state holding the buffered bytes of a `TILTWAVE` line. -/
def stC2 : St := { st0 with buffer := chars "TILTWAVE" }

/-- A mid-write session whose target is `.json` and whose payload the
decoder will reject. -/
def stC3 : St :=
  { st0 with
      mode := some Mode.write
      filename := chars "/config.json"
      file_lines := [chars "this is not json"] }

/-- A mid-write session with a non-`.json` target. -/
def stC4 : St :=
  { st0 with
      mode := some Mode.write
      filename := chars "/a.txt"
      file_lines := [chars "hello"] }

/-- An environment whose pin-probe collaborator raises and whose button
setup would produce a distinguishable fresh registry. -/
def envC7 : Env :=
  { env0 with
      detectPinFn := fun _ => Except.error (chars "probe failed")
      setupButtons := fun _ => Except.ok [(chars "fresh", true)] }

/-- A state holding the buffered bytes of a `DETECTPIN:green` line, with
a recognisably stale button registry. -/
def stC7 : St :=
  { st0 with
      buffer := chars "DETECTPIN:green"
      buttons := [(chars "stale", false)] }

/-- The merge payload object used by the C6 witness. -/
def objC6 : Obj := [(chars "a", Json.num 1)]

/-- An environment whose JSON codec handles exactly the two strings the
C6 witness needs: the payload text and the dumped merged document. -/
def envC6 : Env :=
  { env0 with
      loads := fun s =>
        if s = chars "P" then Except.ok (Json.obj objC6)
        else if s = chars "D\n" then Except.ok (Json.obj objC6)
        else Except.error (chars "bad json")
      dumps := fun _ => chars "D" }

/-- A primed `IMPORTUSER` session holding the C6 witness payload. -/
def stC6 : St :=
  { st0 with
      mode := some Mode.merge_user
      filename := chars "/user_presets.json"
      file_lines := [chars "P"] }

/-! ## Basic lemmas about the byte loop -/

theorem char_ofNat_ne_nl : ∀ b : Nat, b < 128 → b ≠ 10 → ¬ (Char.ofNat b = '\n') := by
  decide

theorem stepByte_push (env : Env) (s : St) (b : Nat) (h1 : b < 128) (h2 : b ≠ 10) :
    stepByte env s b =
      ⟨{ s with buffer := s.buffer ++ [Char.ofNat b] }, [], HaltK.cont⟩ := by
  have hn := char_ofNat_ne_nl b h1 h2
  simp [stepByte, decodeByte, h1, hn]

theorem hs_zero (env : Env) (s : St) (inp : List Nat) :
    handle_serial env 0 s inp = (s, inp, []) := rfl

theorem hs_nil (env : Env) (f : Nat) (s : St) :
    handle_serial env f s [] = (s, [], []) := by
  cases f <;> rfl

theorem hs_cons (env : Env) (f : Nat) (s : St) (b : Nat) (rest : List Nat) :
    handle_serial env (f + 1) s (b :: rest) =
      (match (stepByte env s b).halt with
       | HaltK.cont =>
         let u := handle_serial env f (stepByte env s b).st rest
         (u.1, u.2.1, (stepByte env s b).out ++ u.2.2)
       | _ => ((stepByte env s b).st, rest, (stepByte env s b).out)) := rfl

theorem pushAll_nil (s : St) : pushAll s [] = s := by
  simp [pushAll]

theorem pushAll_push (s : St) (b : Nat) (bs : List Nat) :
    pushAll { s with buffer := s.buffer ++ [Char.ofNat b] } bs = pushAll s (b :: bs) := by
  simp [pushAll]

theorem pushAll_pushAll (s : St) (a b : List Nat) :
    pushAll (pushAll s a) b = pushAll s (a ++ b) := by
  simp [pushAll]

theorem hs_ascii_run (env : Env) :
    ∀ (bs : List Nat) (f : Nat) (s : St) (rest : List Nat),
      AsciiBody bs → bs.length ≤ f →
      handle_serial env f s (bs ++ rest) =
        handle_serial env (f - bs.length) (pushAll s bs) rest := by
  intro bs
  induction bs with
  | nil =>
    intro f s rest _ _
    simp [pushAll_nil]
  | cons b bs ih =>
    intro f s rest hA hf
    obtain ⟨f', rfl⟩ : ∃ f', f = f' + 1 := ⟨f - 1, by simp at hf; omega⟩
    have hb := hA b (by simp)
    have hbs : AsciiBody bs := fun x hx => hA x (by simp [hx])
    have hf' : bs.length ≤ f' := by simp at hf; omega
    rw [List.cons_append, hs_cons, stepByte_push env s b hb.1 hb.2]
    simp only []
    rw [ih f' _ rest hbs hf', pushAll_push]
    simp

theorem hs_newline_last (env : Env) (f : Nat) (s : St) (hf : 1 ≤ f) :
    handle_serial env f s [10] =
      ((stepByte env s 10).st, [], (stepByte env s 10).out) := by
  obtain ⟨f', rfl⟩ : ∃ f', f = f' + 1 := ⟨f - 1, by omega⟩
  rw [hs_cons]
  cases h : (stepByte env s 10).halt <;> simp [h, hs_nil]

theorem hs_line (env : Env) (F : Nat) (s : St) (bs : List Nat)
    (hA : AsciiBody bs) (hF : bs.length + 1 ≤ F) :
    handle_serial env F s (bs ++ [10]) =
      ((stepByte env (pushAll s bs) 10).st, [],
        (stepByte env (pushAll s bs) 10).out) := by
  rw [hs_ascii_run env bs F s [10] hA (by omega),
    hs_newline_last env (F - bs.length) (pushAll s bs) (by omega)]

theorem drainAux_nil (env : Env) (B f : Nat) (s : St) :
    drainAux env B f s [] = (s, []) := by
  cases f <;> rfl

theorem drainAux_step (env : Env) (B n : Nat) (s : St) (inp : List Nat)
    (h : inp.isEmpty = false) :
    drainAux env B (n + 1) s inp =
      ((drainAux env B n (handle_serial env B s inp).1
          (handle_serial env B s inp).2.1).1,
        (handle_serial env B s inp).2.2 ++
          (drainAux env B n (handle_serial env B s inp).1
            (handle_serial env B s inp).2.1).2) := by
  simp [drainAux, h]

theorem drain_line (env : Env) (B : Nat) (hB : 1 ≤ B) :
    ∀ (n : Nat) (bs : List Nat) (s : St), AsciiBody bs → bs.length + 1 ≤ n →
      drainAux env B n s (bs ++ [10]) =
        ((stepByte env (pushAll s bs) 10).st,
          (stepByte env (pushAll s bs) 10).out) := by
  intro n
  induction n with
  | zero => intro bs s _ h; omega
  | succ n ih =>
    intro bs s hA hn
    have hne : (bs ++ [10]).isEmpty = false := by simp
    rw [drainAux_step env B n s _ hne]
    by_cases hc : bs.length + 1 ≤ B
    · rw [hs_line env B s bs hA hc]
      simp [drainAux_nil]
    · have hBlen : B ≤ bs.length := by omega
      have htd : List.take B bs ++ List.drop B bs = bs := List.take_append_drop B bs
      have hAt : AsciiBody (List.take B bs) := fun x hx => hA x (List.take_subset B bs hx)
      have hAd : AsciiBody (List.drop B bs) := fun x hx => hA x (List.drop_subset B bs hx)
      have hlt : (List.take B bs).length = B := by
        simp [List.length_take, Nat.min_eq_left hBlen]
      have h1 : handle_serial env B s (bs ++ [10]) =
          (pushAll s (List.take B bs), List.drop B bs ++ [10], []) := by
        conv_lhs => rw [← htd, List.append_assoc]
        rw [hs_ascii_run env (List.take B bs) B s _ hAt (by omega)]
        rw [hlt, Nat.sub_self, hs_zero]
      rw [h1]
      have hd : (List.drop B bs).length + 1 ≤ n := by
        have := List.length_drop B bs
        simp at hn
        omega
      rw [ih (List.drop B bs) (pushAll s (List.take B bs)) hAd hd]
      rw [pushAll_pushAll, htd]
      simp

/-! ## C1: chunked feeding is equivalent to single-invocation feeding -/

/-- C1: for every byte budget `B ≥ 1` and every complete ASCII command
line `bs ++ [10]`, feeding the line to `handle_serial` split across
multiple invocations at the offsets induced by the budget (threading the
returned state from each call into the next, via `drain`) yields the same
serial responses and the same final state as feeding the entire line to a
single invocation whose budget `F` is sufficient. -/
theorem c1_chunked_feed_equiv (env : Env) (B F : Nat) (s : St) (bs : List Nat)
    (hB : 1 ≤ B) (hF : bs.length + 1 ≤ F) (hA : AsciiBody bs) :
    drain env B s (bs ++ [10]) =
      ((handle_serial env F s (bs ++ [10])).1,
        (handle_serial env F s (bs ++ [10])).2.2) := by
  have hlen : (bs ++ [10]).length = bs.length + 1 := by simp
  rw [drain, hlen, drain_line env B hB (bs.length + 1) bs s hA (le_refl _),
    hs_line env F s bs hA hF]

/-- Witness for C1 at budget 1 and the `READWHAMMY` line. -/
theorem c1_chunked_feed_equiv_w :
    (1 : Nat) ≤ 1 ∧ (bytesOf "READWHAMMY").length + 1 ≤ 16 ∧
      AsciiBody (bytesOf "READWHAMMY") ∧
      drain env0 1 st0 (bytesOf "READWHAMMY" ++ [10]) =
        ((handle_serial env0 16 st0 (bytesOf "READWHAMMY" ++ [10])).1,
          (handle_serial env0 16 st0 (bytesOf "READWHAMMY" ++ [10])).2.2) :=
  ⟨by decide, by decide, by decide,
    c1_chunked_feed_equiv env0 1 16 st0 (bytesOf "READWHAMMY")
      (by decide) (by decide) (by decide)⟩

/-! ## C9: per-invocation work is bounded by the byte budget -/

/-- C9: one invocation of `handle_serial` consumes at most `max_bytes`
bytes from the waiting input (the remaining channel content is a drop of
the input by at most the budget), and an empty channel returns the state
unchanged immediately with no responses. -/
theorem c9_bounded_reads (env : Env) (f : Nat) (s : St) (inp : List Nat) :
    (∃ k, k ≤ f ∧ (handle_serial env f s inp).2.1 = List.drop k inp) ∧
      handle_serial env f s [] = (s, [], []) := by
  refine ⟨?_, hs_nil env f s⟩
  induction f generalizing s inp with
  | zero => exact ⟨0, Nat.le_refl 0, rfl⟩
  | succ f ih =>
    cases inp with
    | nil => exact ⟨0, by omega, by simp [hs_nil]⟩
    | cons b rest =>
      rw [hs_cons]
      obtain ⟨k, hk, he⟩ := ih (stepByte env s b).st rest
      cases h : (stepByte env s b).halt
      case cont => exact ⟨k + 1, by omega, by simp [h, he, List.drop_succ_cons]⟩
      case ret => exact ⟨1, by omega, by simp [h]⟩
      case reset => exact ⟨1, by omega, by simp [h]⟩

/-! ## C10: an undecodable byte crashes and resets the session -/

/-- C10: any byte at or above 0x80 fails the single-byte UTF-8 decode;
the top-level handler emits the `ERROR: Serial crash` line and resets the
line buffer, the mode and the pending payload, ending the invocation —
the partial line and any in-progress transfer session are discarded. -/
theorem c10_undecodable_byte (env : Env) (s : St) (b : Nat) (h : 128 ≤ b) :
    stepByte env s b =
      ⟨{ s with buffer := [], mode := none, file_lines := [] },
        [crashLine (chars "invalid start byte")], HaltK.ret⟩ := by
  have hlt : ¬ b < 128 := by omega
  simp [stepByte, decodeByte, hlt, crashReset]

/-- Witness for C10 at byte 0xC8. -/
theorem c10_undecodable_byte_w :
    (128 : Nat) ≤ 200 ∧
      stepByte env0 st0 200 =
        ⟨{ st0 with buffer := [], mode := none, file_lines := [] },
          [crashLine (chars "invalid start byte")], HaltK.ret⟩ :=
  ⟨by decide, c10_undecodable_byte env0 st0 200 (by decide)⟩

/-! ## C2: uncaught exceptions are caught at the top level -/

/-- C2: when processing the completed line raises an uncaught exception,
the top-level handler appends the `ERROR: Serial crash` line to whatever
was already written, resets the line buffer to empty, the mode to idle
and the payload to empty, and ends the invocation — so the engine is in a
clean idle state and a well-formed command arriving on a subsequent
invocation is dispatched as a fresh command. -/
theorem c2_crash_recovery (env : Env) (s st' : St) (o : List Str) (m : Str)
    (h : processLineCore env { s with buffer := [] } (pyRstripNL s.buffer) =
      Except.error (st', o, m)) :
    stepByte env s 10 = ⟨crashReset st', o ++ [crashLine m], HaltK.ret⟩ ∧
      (crashReset st').buffer = [] ∧ (crashReset st').mode = none ∧
      (crashReset st').file_lines = [] := by
  have hd : decodeByte 10 = Except.ok '\n' := rfl
  refine ⟨?_, rfl, rfl, rfl⟩
  simp [stepByte, hd, h]

/-- Witness for C2: a `TILTWAVE` line whose collaborator raises. -/
theorem c2_crash_recovery_w :
    (processLineCore envC2 { stC2 with buffer := [] } (pyRstripNL stC2.buffer) =
      Except.error (st0, [], chars "boom")) ∧
      (stepByte envC2 stC2 10 =
          ⟨crashReset st0, [] ++ [crashLine (chars "boom")], HaltK.ret⟩ ∧
        (crashReset st0).buffer = [] ∧ (crashReset st0).mode = none ∧
        (crashReset st0).file_lines = []) :=
  ⟨rfl, c2_crash_recovery envC2 stC2 st0 [] (chars "boom") rfl⟩

/-! ## Dispatch of the END line in the two payload sessions -/

theorem plc_end_write (env : Env) (st : St) (hm : st.mode = some Mode.write) :
    processLineCore env st (chars "END") = Except.ok (writeEndCmd env st) := by
  have hni : isIdle st = false := by simp [isIdle, hm]
  have h1 : pyStartsWith (chars "PREVIEWLED:") (chars "END") = false := by decide
  simp [processLineCore, dispatchChain, writeModeStep, hni, hm, h1]

theorem plc_end_merge (env : Env) (st : St) (hm : st.mode = some Mode.merge_user) :
    processLineCore env st (chars "END") = Except.ok (mergeEndCmd env st) := by
  have hni : isIdle st = false := by simp [isIdle, hm]
  have h1 : pyStartsWith (chars "PREVIEWLED:") (chars "END") = false := by decide
  simp [processLineCore, dispatchChain, writeModeStep, mergeModeStep, hni, hm, h1]

/-! ## C3: invalid JSON payload of a `.json` WRITEFILE session -/

/-- C3: `END` of a `WRITEFILE` session whose target ends in `.json` and
whose payload the JSON decoder rejects answers with an error line, leaves
the filesystem (hence the target file) untouched, and resets the session
to idle with the payload cleared, so subsequent commands are processed
normally. -/
theorem c3_writefile_bad_json (env : Env) (st : St) (e : Str)
    (hm : st.mode = some Mode.write)
    (hj : endsJson st.filename = true)
    (hp : env.loads (joinNL st.file_lines) = Except.error e) :
    processLineCore env st (chars "END") =
      Except.ok ⟨{ st with mode := none, file_lines := [] },
        [chars "ERROR: Failed to write " ++ st.filename ++ chars ": " ++ e
          ++ chars "\n"], HaltK.cont⟩ := by
  rw [plc_end_write env st hm]
  simp [writeEndCmd, hj, hp]

/-- Witness for C3: a `/config.json` write whose payload does not parse. -/
theorem c3_writefile_bad_json_w :
    stC3.mode = some Mode.write ∧ endsJson stC3.filename = true ∧
      processLineCore env0 stC3 (chars "END") =
        Except.ok ⟨{ stC3 with mode := none, file_lines := [] },
          [chars "ERROR: Failed to write " ++ stC3.filename ++ chars ": "
            ++ chars "bad json" ++ chars "\n"], HaltK.cont⟩ :=
  ⟨rfl, by decide, c3_writefile_bad_json env0 stC3 (chars "bad json") rfl (by decide) rfl⟩

/-! ## C4: END must always answer (refuted: non-json success is silent) -/

/-- Counterexample to C4: `END` of a `WRITEFILE` session targeting
`/a.txt` (not `.json`) writes the file and emits no serial response at
all — the response list of the processed line is empty. -/
theorem c4_silent_end_cex :
    processLineCore env0 stC4 (chars "END") =
      Except.ok ⟨{ stC4 with
          fs := fsWrite stC4.fs stC4.filename (joinNL stC4.file_lines ++ ['\n'])
          mode := none
          file_lines := [] }, [], HaltK.cont⟩ := rfl

/-- C4 amended: `END` of a `WRITEFILE` session always produces at least
one response line when the target ends in `.json` (a success marker or an
error-prefixed line); for any other target a successful write completes
silently, with no response. -/
theorem c4_end_response_amended (env : Env) (st : St) (r : LR)
    (hm : st.mode = some Mode.write)
    (h : processLineCore env st (chars "END") = Except.ok r) :
    (endsJson st.filename = true → r.out ≠ []) ∧
      (endsJson st.filename = false → r.out = []) := by
  rw [plc_end_write env st hm] at h
  injection h with h
  subst h
  have e1 : endsJson (chars "/user_presets.json") = true := by decide
  have e2 : endsJson (chars "/config.json") = true := by decide
  have ne1 : ¬ (chars "/config.json" = chars "/user_presets.json") := by decide
  constructor
  · intro hj
    cases hload : env.loads (joinNL st.file_lines) with
    | error e => simp [writeEndCmd, hj, hload]
    | ok parsed =>
      by_cases hu : st.filename = chars "/user_presets.json"
      · cases hg : jsonGetD parsed (chars "NewUserPreset1") (Json.obj []) with
        | ok pc => simp [writeEndCmd, hj, hload, hu, hg, e1]
        | error e => simp [writeEndCmd, hj, hload, hu, hg, e1]
      · by_cases hc : st.filename = chars "/config.json"
        · simp [writeEndCmd, hj, hload, hu, hc, e2, ne1]
        · simp [writeEndCmd, hj, hload, hu, hc]
  · intro hj
    simp [writeEndCmd, hj]

/-- Witness for the amended C4: the bad-JSON `/config.json` session does
answer. -/
theorem c4_end_response_amended_w :
    stC4.mode = some Mode.write ∧ (writeEndCmd env0 stC4).out = [] :=
  ⟨rfl, (c4_end_response_amended env0 stC4 (writeEndCmd env0 stC4) rfl
    (plc_end_write env0 stC4 rfl)).2 (by decide)⟩

/-! ## C7: DETECTPIN reinitializes buttons (refuted for a raising probe) -/

/-- Counterexample to C7: with a pin-probe collaborator that raises, the
`DETECTPIN:green` line emits the start acknowledgement and then crashes
into the top-level handler; the button registry is left exactly as it was
(deinitialized, stale) and is NOT reinitialized from the configuration,
although the environment's `setup_buttons` would have produced a fresh
registry. -/
theorem c7_detect_crash_cex :
    envC7.detectPinFn (chars "green") = Except.error (chars "probe failed") ∧
      envC7.setupButtons stC7.config = Except.ok [(chars "fresh", true)] ∧
      stepByte envC7 stC7 10 =
        ⟨{ st0 with buttons := [(chars "stale", false)] },
          [chars "PINDETECT:START:green\n", crashLine (chars "probe failed")],
          HaltK.ret⟩ ∧
      (stepByte envC7 stC7 10).st.buttons ≠ [(chars "fresh", true)] :=
  ⟨rfl, rfl, rfl, by decide⟩

/-- C7 amended: `DETECTPIN:<name>` while idle deinitializes the button
pins, emits the start acknowledgement, probes, emits the detected /
none-found result, and reinitializes the button registry from the current
configuration whenever the probe returns (with or without a pin); when
the probe itself raises, the top-level crash handler resets the session
but the button registry is NOT reinitialized. -/
theorem c7_detectpin_reinit_amended (env : Env) (st : St) (nm : Str)
    (dp : Option Str) (bs : Buttons)
    (hm : st.mode = none)
    (h1 : env.deinitAllButtons = Except.ok ())
    (h2 : env.detectPinFn (pyStrip nm) = Except.ok dp)
    (h3 : env.setupButtons st.config = Except.ok bs) :
    processLineCore env st (chars "DETECTPIN:" ++ nm) =
      Except.ok ⟨{ st with buttons := bs },
        [chars "PINDETECT:START:" ++ pyStrip nm ++ chars "\n",
          detectResultMsg (pyStrip nm) dp], HaltK.ret⟩ := by
  have hi : isIdle st = true := by simp [isIdle, hm]
  have hsw : pyStartsWith (chars "DETECTPIN:") (chars "DETECTPIN:" ++ nm) = true := rfl
  have hac : afterColon (chars "DETECTPIN:" ++ nm) = nm := rfl
  simp [processLineCore, hi, hsw, detectPinCmd, hac, h1, h2, h3]

/-- Witness for the amended C7 on a successful probe. -/
theorem c7_detectpin_reinit_amended_w :
    st0.mode = none ∧
      processLineCore env0 st0 (chars "DETECTPIN:" ++ chars "green") =
        Except.ok ⟨{ st0 with buttons := [(chars "GREEN_FRET", true)] },
          [chars "PINDETECT:START:" ++ pyStrip (chars "green") ++ chars "\n",
            detectResultMsg (pyStrip (chars "green")) (some (chars "GP5"))],
          HaltK.ret⟩ :=
  ⟨rfl, c7_detectpin_reinit_amended env0 st0 (chars "green")
    (some (chars "GP5")) [(chars "GREEN_FRET", true)] rfl rfl rfl rfl⟩

/-! ## Splitting lemmas for colon-separated command arguments -/

theorem pySplit_ne_nil (sep : Char) (s : Str) : pySplit sep s ≠ [] := by
  induction s with
  | nil => simp [pySplit]
  | cons c cs ih =>
    simp only [pySplit]
    by_cases h : c = sep
    · simp [h]
    · simp only [h, if_false]
      cases hr : pySplit sep cs with
      | nil => simp
      | cons a t => simp

theorem pySplit_no_sep (sep : Char) (s : Str) (h : sep ∉ s) :
    pySplit sep s = [s] := by
  induction s with
  | nil => rfl
  | cons c cs ih =>
    have hc : ¬ c = sep := fun he => h (by simp [he])
    have hcs : sep ∉ cs := fun hm => h (by simp [hm])
    simp only [pySplit, hc, if_false, ih hcs]

theorem pySplit_sep_cons (sep : Char) (a rest : Str) (h : sep ∉ a) :
    pySplit sep (a ++ sep :: rest) = a :: pySplit sep rest := by
  induction a with
  | nil => simp [pySplit]
  | cons c a' ih =>
    have hc : ¬ c = sep := fun he => h (by simp [he])
    have ha' : sep ∉ a' := fun hm => h (by simp [hm])
    simp only [List.cons_append, pySplit, hc, if_false, List.append_eq, ih ha']

/-! ## C5: the SETLED command contract -/

/-- C5: on a line `SETLED:<i>:<r>:<g>:<b>` (with integer fields, fed
while idle with an existing LED strip): if `0 ≤ i < len(strip)` and each
channel lies in `[0, 255]`, the strip entry at `i` becomes `(r,g,b)`, the
strip is latched (`ledsOut`), and `SETLED:<i>:OK` is answered; otherwise
`SETLED:<i>:ERR` is answered and the strip is not mutated. -/
theorem c5_setled_contract (env : Env) (st : St) (l : List Rgb)
    (s1 s2 s3 s4 : Str) (i r g b : Int)
    (hmode : st.mode = none) (hleds : st.leds = some l)
    (h1 : pyInt s1 = Except.ok i) (h2 : pyInt s2 = Except.ok r)
    (h3 : pyInt s3 = Except.ok g) (h4 : pyInt s4 = Except.ok b)
    (n1 : ':' ∉ s1) (n2 : ':' ∉ s2) (n3 : ':' ∉ s3) (n4 : ':' ∉ s4) :
    (0 ≤ i ∧ i < (l.length : Int) ∧ 0 ≤ r ∧ r ≤ 255 ∧ 0 ≤ g ∧ g ≤ 255 ∧
        0 ≤ b ∧ b ≤ 255 →
      processLineCore env st
          (chars "SETLED:" ++ s1 ++ [':'] ++ s2 ++ [':'] ++ s3 ++ [':'] ++ s4) =
        Except.ok ⟨{ st with
            leds := some (l.set i.toNat (r, g, b))
            ledsOut := l.set i.toNat (r, g, b) },
          [chars "SETLED:" ++ pyShowInt i ++ chars ":OK\n"], HaltK.cont⟩) ∧
    (¬ (0 ≤ i ∧ i < (l.length : Int) ∧ 0 ≤ r ∧ r ≤ 255 ∧ 0 ≤ g ∧ g ≤ 255 ∧
        0 ≤ b ∧ b ≤ 255) →
      processLineCore env st
          (chars "SETLED:" ++ s1 ++ [':'] ++ s2 ++ [':'] ++ s3 ++ [':'] ++ s4) =
        Except.ok ⟨st, [chars "SETLED:" ++ pyShowInt i ++ chars ":ERR\n"],
          HaltK.cont⟩) := by
  have hi : isIdle st = true := by simp [isIdle, hmode]
  set line : Str :=
    chars "SETLED:" ++ s1 ++ [':'] ++ s2 ++ [':'] ++ s3 ++ [':'] ++ s4 with hld
  have g1 : pyStartsWith (chars "DETECTPIN:") line = false := rfl
  have g2 : pyStartsWith (chars "SAVEPIN:") line = false := rfl
  have g3 : decide (line = chars "CANCELPINDETECT") = false := rfl
  have g4 : pyStartsWith (chars "PREVIEWLED:") line = false := rfl
  have g5 : pyStartsWith (chars "READFILE:") line = false := rfl
  have g6 : decide (line = chars "READWHAMMY") = false := rfl
  have g7 : decide (line = chars "READJOYSTICK") = false := rfl
  have g8 : pyStartsWith (chars "WRITEFILE:") line = false := rfl
  have g9 : decide (line = chars "IMPORTUSER") = false := rfl
  have g10 : pyStartsWith (chars "READPIN:") line = false := rfl
  have g11 : decide (line = chars "TILTWAVE") = false := rfl
  have g12 : pyStartsWith (chars "SETLED:") line = true := rfl
  have hplc : processLineCore env st line = Except.ok (setLedCmd st line) := by
    simp [processLineCore, dispatchChain, hi, g1, g2, g3, g4, g5, g6, g7, g8,
      g9, g10, g11, g12]
  have hline' : line = chars "SETLED" ++ ':' ::
      (s1 ++ ':' :: (s2 ++ ':' :: (s3 ++ ':' :: s4))) := by
    rw [hld, show chars "SETLED:" = chars "SETLED" ++ [':'] from rfl]
    simp [List.append_assoc]
  have hsplit : pySplit ':' line = [chars "SETLED", s1, s2, s3, s4] := by
    rw [hline', pySplit_sep_cons ':' (chars "SETLED") _ (by decide),
      pySplit_sep_cons ':' s1 _ n1, pySplit_sep_cons ':' s2 _ n2,
      pySplit_sep_cons ':' s3 _ n3, pySplit_no_sep ':' s4 n4]
  constructor
  · intro hok
    obtain ⟨hi0, hil, hr0, hr5, hg0, hg5, hb0, hb5⟩ := hok
    have hlp : 0 < l.length := by
      have : (0 : Int) < l.length := lt_of_le_of_lt hi0 hil
      exact_mod_cast this
    have hne : l ≠ [] := List.ne_nil_of_length_pos hlp
    have hie : l.isEmpty = false := by
      cases l
      · simp at hlp
      · rfl
    have hcond : setLedCond (some l) i r g b = true := by
      simp only [setLedCond, ledsTruthy, lenLeds, hie, Bool.not_false,
        Bool.true_and, Bool.and_eq_true, decide_eq_true_eq]
      exact ⟨⟨⟨⟨⟨⟨⟨hi0, hil⟩, hr0⟩, hr5⟩, hg0⟩, hg5⟩, hb0⟩, hb5⟩
    rw [hplc]
    simp [setLedCmd, hsplit, h1, h2, h3, h4, hcond, hleds]
  · intro hbad
    have hcond : setLedCond (some l) i r g b = false := by
      cases hc : setLedCond (some l) i r g b
      · rfl
      · exfalso
        simp only [setLedCond, ledsTruthy, lenLeds, Bool.and_eq_true,
          decide_eq_true_eq] at hc
        obtain ⟨⟨⟨⟨⟨⟨⟨⟨_, hi0⟩, hil⟩, hr0⟩, hr5⟩, hg0⟩, hg5⟩, hb0⟩, hb5⟩ := hc
        exact hbad ⟨hi0, hil, hr0, hr5, hg0, hg5, hb0, hb5⟩
    rw [hplc]
    simp [setLedCmd, hsplit, h1, h2, h3, h4, hcond, hleds]

/-- Witness for C5: `SETLED:2:300:0:0` on the three-pixel strip answers
`SETLED:2:ERR` and leaves the strip untouched. -/
theorem c5_setled_contract_w :
    st0.mode = none ∧ st0.leds = some [(0, 0, 0), (0, 0, 0), (0, 0, 0)] ∧
      processLineCore env0 st0
          (chars "SETLED:" ++ chars "2" ++ [':'] ++ chars "300" ++ [':'] ++
            chars "0" ++ [':'] ++ chars "0") =
        Except.ok ⟨st0, [chars "SETLED:" ++ pyShowInt 2 ++ chars ":ERR\n"],
          HaltK.cont⟩ :=
  ⟨rfl, rfl,
    (c5_setled_contract env0 st0 [(0, 0, 0), (0, 0, 0), (0, 0, 0)]
        (chars "2") (chars "300") (chars "0") (chars "0") 2 300 0 0
        rfl rfl rfl rfl rfl rfl (by decide) (by decide) (by decide)
        (by decide)).2 (by decide)⟩

/-! ## C8: the session invariant -/

theorem inv_clear {t : St} (h : t.file_lines = []) : sessionInv t :=
  fun hf => absurd h hf

theorem inv_some {t : St} {m : Mode} (h : t.mode = some m) : sessionInv t := by
  intro _ hn
  rw [h] at hn
  exact Option.noConfusion hn

theorem inv_mono (st t : St) (hm : t.mode = st.mode)
    (hf : t.file_lines = st.file_lines) (hinv : sessionInv st) : sessionInv t := by
  intro h
  rw [hm]
  exact hinv (hf ▸ h)

theorem previewLed_fields (env : Env) (st : St) (line : Str) :
    (previewLedCmd env st line).1.mode = st.mode ∧
      (previewLedCmd env st line).1.file_lines = st.file_lines := by
  unfold previewLedCmd
  repeat' split
  all_goals exact ⟨rfl, rfl⟩

theorem inv_detectPinCmd (env : Env) (st : St) (line : Str) (r : LR)
    (h : detectPinCmd env st line = Except.ok r) (hinv : sessionInv st) :
    sessionInv r.st := by
  unfold detectPinCmd at h
  cases h1 : env.deinitAllButtons with
  | error e => rw [h1] at h; exact Except.noConfusion h
  | ok u =>
    rw [h1] at h
    try simp only [] at h
    cases h2 : env.detectPinFn (pyStrip (afterColon line)) with
    | error e => rw [h2] at h; try simp only [] at h; exact Except.noConfusion h
    | ok dp =>
      rw [h2] at h
      try simp only [] at h
      cases h3 : env.setupButtons st.config with
      | error e => rw [h3] at h; try simp only [] at h; exact Except.noConfusion h
      | ok bs =>
        rw [h3] at h
        try simp only [] at h
        injection h with h; subst h
        exact hinv

theorem inv_savePinCmd (env : Env) (st : St) (line : Str)
    (hinv : sessionInv st) : sessionInv (savePinCmd env st line).st := by
  unfold savePinCmd
  repeat' (first | simp only [] | split)
  all_goals exact hinv

theorem inv_cancelCmd (env : Env) (st : St) (r : LR)
    (h : cancelPinDetectCmd env st = Except.ok r) (hinv : sessionInv st) :
    sessionInv r.st := by
  unfold cancelPinDetectCmd at h
  split at h
  · exact Except.noConfusion h
  · injection h with h; subst h; exact hinv

theorem inv_readFileCmd (st : St) (line : Str) (hinv : sessionInv st) :
    sessionInv (readFileCmd st line).st := by
  unfold readFileCmd
  repeat' (first | simp only [] | split)
  all_goals exact hinv

theorem inv_readWhammyCmd (st : St) (hinv : sessionInv st) :
    sessionInv (readWhammyCmd st).st := by
  unfold readWhammyCmd
  repeat' (first | simp only [] | split)
  all_goals exact hinv

theorem inv_readJoystickCmd (env : Env) (st : St) (hinv : sessionInv st) :
    sessionInv (readJoystickCmd env st).st := by
  unfold readJoystickCmd
  repeat' (first | simp only [] | split)
  all_goals exact hinv

theorem inv_readPinCmd (st : St) (line : Str) (hinv : sessionInv st) :
    sessionInv (readPinCmd st line).st := by
  unfold readPinCmd
  repeat' (first | simp only [] | split)
  all_goals exact hinv

theorem inv_tiltWaveCmd (env : Env) (st : St) (r : LR)
    (h : tiltWaveCmd env st = Except.ok r) (hinv : sessionInv st) :
    sessionInv r.st := by
  unfold tiltWaveCmd at h
  split at h
  · exact Except.noConfusion h
  · injection h with h; subst h; exact hinv

theorem inv_setLedCmd (st : St) (line : Str) (hinv : sessionInv st) :
    sessionInv (setLedCmd st line).st := by
  unfold setLedCmd
  repeat' (first | simp only [] | split)
  all_goals exact hinv

theorem inv_ledRestoreCmd (env : Env) (st : St) (hinv : sessionInv st) :
    sessionInv (ledRestoreCmd env st).st := by
  unfold ledRestoreCmd
  repeat' (first | simp only [] | split)
  all_goals exact hinv

theorem inv_writeEndCmd (env : Env) (st : St) (hinv : sessionInv st) :
    sessionInv (writeEndCmd env st).st := by
  unfold writeEndCmd
  repeat' (first | simp only [] | split)
  all_goals first | exact inv_clear rfl | exact hinv

theorem inv_writeModeStep (env : Env) (st : St) (line : Str)
    (hm : st.mode = some Mode.write) (hinv : sessionInv st) :
    sessionInv (writeModeStep env st line).st := by
  unfold writeModeStep
  split
  · exact inv_writeEndCmd env st hinv
  · exact inv_some hm

theorem inv_mergeEndCmd (env : Env) (st : St) (hinv : sessionInv st) :
    sessionInv (mergeEndCmd env st).st := by
  unfold mergeEndCmd
  repeat' (first | simp only [] | split)
  all_goals exact inv_clear rfl

theorem inv_mergeModeStep (env : Env) (st : St) (line : Str)
    (hm : st.mode = some Mode.merge_user) (hinv : sessionInv st) :
    sessionInv (mergeModeStep env st line).st := by
  unfold mergeModeStep
  split
  · exact inv_mergeEndCmd env st hinv
  · exact inv_some hm

theorem inv_fallbackCmd (st : St) (line : Str) (hinv : sessionInv st) :
    sessionInv (fallbackCmd st line).st := by
  unfold fallbackCmd
  split
  · exact inv_readPinCmd st line hinv
  · exact hinv

theorem dispatch_inv (env : Env) (st : St) (line : Str) (r : LR)
    (h : dispatchChain env st line = Except.ok r) (hinv : sessionInv st) :
    sessionInv r.st := by
  unfold dispatchChain at h
  by_cases c1 : (isIdle st && pyStartsWith (chars "READFILE:") line) = true
  · rw [if_pos c1] at h; injection h with h; subst h
    exact inv_readFileCmd st line hinv
  rw [if_neg c1] at h
  by_cases c2 : (isIdle st && decide (line = chars "READWHAMMY")) = true
  · rw [if_pos c2] at h; injection h with h; subst h
    exact inv_readWhammyCmd st hinv
  rw [if_neg c2] at h
  by_cases c3 : (isIdle st && decide (line = chars "READJOYSTICK")) = true
  · rw [if_pos c3] at h; injection h with h; subst h
    exact inv_readJoystickCmd env st hinv
  rw [if_neg c3] at h
  by_cases c4 : (isIdle st && pyStartsWith (chars "WRITEFILE:") line) = true
  · rw [if_pos c4] at h; injection h with h; subst h
    exact inv_clear rfl
  rw [if_neg c4] at h
  by_cases c5 : (isIdle st && decide (line = chars "IMPORTUSER")) = true
  · rw [if_pos c5] at h; injection h with h; subst h
    exact inv_clear rfl
  rw [if_neg c5] at h
  by_cases c6 : (isIdle st && pyStartsWith (chars "READPIN:") line) = true
  · rw [if_pos c6] at h; injection h with h; subst h
    exact inv_readPinCmd st line hinv
  rw [if_neg c6] at h
  by_cases c7 : (isIdle st && decide (line = chars "TILTWAVE")) = true
  · rw [if_pos c7] at h
    exact inv_tiltWaveCmd env st r h hinv
  rw [if_neg c7] at h
  by_cases c8 : (isIdle st && pyStartsWith (chars "SETLED:") line) = true
  · rw [if_pos c8] at h; injection h with h; subst h
    exact inv_setLedCmd st line hinv
  rw [if_neg c8] at h
  by_cases c9 : (isIdle st && decide (line = chars "LEDRESTORE")) = true
  · rw [if_pos c9] at h; injection h with h; subst h
    exact inv_ledRestoreCmd env st hinv
  rw [if_neg c9] at h
  by_cases c10 : (isIdle st && pyStartsWith (chars "TILTWAVE_ENABLE:") line) = true
  · rw [if_pos c10] at h; injection h with h; subst h
    exact hinv
  rw [if_neg c10] at h
  by_cases c11 : st.mode = some Mode.write
  · rw [if_pos c11] at h; injection h with h; subst h
    exact inv_writeModeStep env st line c11 hinv
  rw [if_neg c11] at h
  by_cases c12 : st.mode = some Mode.merge_user
  · rw [if_pos c12] at h; injection h with h; subst h
    exact inv_mergeModeStep env st line c12 hinv
  rw [if_neg c12] at h
  by_cases c13 : (isIdle st && decide (line = chars "REBOOTBOOTSEL")) = true
  · rw [if_pos c13] at h; injection h with h; subst h
    exact hinv
  rw [if_neg c13] at h
  by_cases c14 : (isIdle st && decide (line = chars "REBOOT")) = true
  · rw [if_pos c14] at h; injection h with h; subst h
    exact hinv
  rw [if_neg c14] at h
  by_cases c15 : (isIdle st && decide (line = chars "READUID")) = true
  · rw [if_pos c15] at h; injection h with h; subst h
    exact hinv
  rw [if_neg c15] at h
  by_cases c16 : isIdle st = true
  · rw [if_pos c16] at h; injection h with h; subst h
    exact inv_fallbackCmd st line hinv
  rw [if_neg c16] at h
  injection h with h; subst h
  exact hinv

theorem plc_inv (env : Env) (st : St) (line : Str) (r : LR)
    (h : processLineCore env st line = Except.ok r) (hinv : sessionInv st) :
    sessionInv r.st := by
  unfold processLineCore at h
  by_cases c1 : (isIdle st && pyStartsWith (chars "DETECTPIN:") line) = true
  · rw [if_pos c1] at h
    exact inv_detectPinCmd env st line r h hinv
  rw [if_neg c1] at h
  by_cases c2 : (isIdle st && pyStartsWith (chars "SAVEPIN:") line) = true
  · rw [if_pos c2] at h; injection h with h; subst h
    exact inv_savePinCmd env st line hinv
  rw [if_neg c2] at h
  by_cases c3 : (isIdle st && decide (line = chars "CANCELPINDETECT")) = true
  · rw [if_pos c3] at h
    exact inv_cancelCmd env st r h hinv
  rw [if_neg c3] at h
  simp only [] at h
  by_cases hp : pyStartsWith (chars "PREVIEWLED:") line = true
  · rw [if_pos hp] at h
    cases hd : dispatchChain env (previewLedCmd env st line).1 line with
    | ok r0 =>
      rw [hd] at h
      simp only [] at h
      injection h with h; subst h
      exact dispatch_inv env _ line r0 hd
        (inv_mono st _ (previewLed_fields env st line).1
          (previewLed_fields env st line).2 hinv)
    | error c =>
      rw [hd] at h
      simp only [] at h
      exact Except.noConfusion h
  · rw [if_neg hp] at h
    cases hd : dispatchChain env st line with
    | ok r0 =>
      rw [hd] at h
      simp only [] at h
      injection h with h; subst h
      exact dispatch_inv env st line r0 hd hinv
    | error c =>
      rw [hd] at h
      simp only [] at h
      exact Except.noConfusion h

theorem stepByte_inv (env : Env) (s : St) (b : Nat) (h : sessionInv s) :
    sessionInv (stepByte env s b).st := by
  unfold stepByte
  cases hd : decodeByte b with
  | error m => simp only [hd]; exact inv_clear rfl
  | ok c =>
    by_cases hc : c = '\n'
    · subst hc
      simp only [hd, if_pos rfl]
      cases hp : processLineCore env { s with buffer := [] } (pyRstripNL s.buffer) with
      | ok r => simp only [hp]; exact plc_inv env _ _ r hp h
      | error cr => simp only [hp]; exact inv_clear rfl
    · simp only [hd, if_neg hc]
      exact h

/-- C8: the session invariant — the pending payload is non-empty only
while a payload session is active — is preserved by every invocation of
`handle_serial`: every transition back to idle (END, END failure, crash
recovery) clears the payload, and starting a session clears it too. -/
theorem c8_session_invariant (env : Env) (f : Nat) (s : St) (inp : List Nat)
    (h : sessionInv s) : sessionInv (handle_serial env f s inp).1 := by
  induction f generalizing s inp with
  | zero => exact h
  | succ f ih =>
    cases inp with
    | nil => rw [hs_nil]; exact h
    | cons b rest =>
      rw [hs_cons]
      cases hh : (stepByte env s b).halt
      case cont => simp only [hh]; exact ih (stepByte env s b).st rest (stepByte_inv env s b h)
      case ret => simp only [hh]; exact stepByte_inv env s b h
      case reset => simp only [hh]; exact stepByte_inv env s b h

/-- Witness for C8 over an `IMPORTUSER` session start. -/
theorem c8_session_invariant_w :
    sessionInv st0 ∧
      sessionInv (handle_serial env0 16 st0 (bytesOf "IMPORTUSER\n")).1 :=
  ⟨inv_clear rfl,
    c8_session_invariant env0 16 st0 (bytesOf "IMPORTUSER\n") (inv_clear rfl)⟩

/-! ## C6: the IMPORTUSER merge and its idempotence -/

theorem assoc_append {α : Type} (k : Str) (l1 l2 : List (Str × α)) :
    assoc k (l1 ++ l2) =
      match assoc k l1 with
      | some v => some v
      | none => assoc k l2 := by
  induction l1 with
  | nil => simp [assoc]
  | cons kv t ih =>
    by_cases hk : kv.1 = k
    · simp [assoc, hk]
    · simp [assoc, hk, ih]

theorem assoc_isSome_of_mem {α : Type} (k : Str) (v : α) (l : List (Str × α))
    (h : (k, v) ∈ l) : (assoc k l).isSome = true := by
  induction l with
  | nil => cases h
  | cons kv t ih =>
    rcases List.mem_cons.mp h with h1 | h2
    · subst h1; simp [assoc]
    · by_cases hk : kv.1 = k
      · simp [assoc, hk]
      · simp [assoc, hk, ih h2]

theorem assoc_of_mem_nodup {α : Type} (k : Str) (v : α) (l : List (Str × α))
    (h : (k, v) ∈ l) (hn : (l.map Prod.fst).Nodup) : assoc k l = some v := by
  induction l with
  | nil => cases h
  | cons kv t ih =>
    have hn' : (kv.1 :: t.map Prod.fst).Nodup := hn
    rcases List.mem_cons.mp h with h1 | h2
    · subst h1; simp [assoc]
    · have hk : kv.1 ≠ k := by
        intro he
        exact (List.nodup_cons.mp hn').1
          (by rw [he]; exact List.mem_map.mpr ⟨(k, v), h2, rfl⟩)
      have hn2 : (t.map Prod.fst).Nodup := (List.nodup_cons.mp hn').2
      simp [assoc, hk, ih h2 hn2]

theorem overrideKV_fst (n : Obj) (kv : Str × Json) :
    (overrideKV n kv).1 = kv.1 := by
  unfold overrideKV
  split <;> rfl

theorem overrideKV_idem (n : Obj) (kv : Str × Json) :
    overrideKV n (overrideKV n kv) = overrideKV n kv := by
  cases hk : assoc kv.1 n with
  | none =>
    have h1 : overrideKV n kv = kv := by simp [overrideKV, hk]
    rw [h1]
    exact h1
  | some v =>
    have h1 : overrideKV n kv = (kv.1, v) := by simp [overrideKV, hk]
    rw [h1]
    simp [overrideKV, hk]

theorem assoc_map_override (n e : Obj) (k : Str) :
    (assoc k (e.map (overrideKV n))).isSome = (assoc k e).isSome := by
  induction e with
  | nil => rfl
  | cons kv t ih =>
    by_cases hk : kv.1 = k
    · simp [assoc, overrideKV_fst, hk]
    · simp [assoc, overrideKV_fst, hk, ih]

theorem map_eq_self_of_forall {α : Type} (f : α → α) (l : List α)
    (h : ∀ x ∈ l, f x = x) : l.map f = l := by
  induction l with
  | nil => rfl
  | cons a t ih =>
    simp [h a (List.mem_cons_self a t),
      ih (fun x hx => h x (List.mem_cons_of_mem a hx))]

/-- `dict.update` with the same argument twice is the same as once. -/
theorem dictUpdate_idem (e n : Obj) (hn : (n.map Prod.fst).Nodup) :
    dictUpdate (dictUpdate e n) n = dictUpdate e n := by
  have hmap : (dictUpdate e n).map (overrideKV n) = dictUpdate e n := by
    apply map_eq_self_of_forall
    intro kv hkv
    rcases List.mem_append.mp hkv with hm | hf
    · obtain ⟨kv0, _, rfl⟩ := List.mem_map.mp hm
      exact overrideKV_idem n kv0
    · have hkvn : kv ∈ n := (List.mem_filter.mp hf).1
      have ha := assoc_of_mem_nodup kv.1 kv.2 n hkvn hn
      simp [overrideKV, ha]
  have hfilt : n.filter (fun kv => (assoc kv.1 (dictUpdate e n)).isNone) = [] := by
    rw [List.filter_eq_nil_iff]
    intro kv hkv
    cases hae : assoc kv.1 e with
    | some v =>
      have h1 : (assoc kv.1 (e.map (overrideKV n))).isSome = true := by
        rw [assoc_map_override]; simp [hae]
      cases h2 : assoc kv.1 (e.map (overrideKV n)) with
      | some w => simp [dictUpdate, assoc_append, h2]
      | none => rw [h2] at h1; simp at h1
    | none =>
      have hmem : kv ∈ n.filter (fun kv => (assoc kv.1 e).isNone) :=
        List.mem_filter.mpr ⟨hkv, by simp [hae]⟩
      have h1 : (assoc kv.1 (n.filter (fun kv => (assoc kv.1 e).isNone))).isSome
          = true := assoc_isSome_of_mem kv.1 kv.2 _ hmem
      have h2 : assoc kv.1 (e.map (overrideKV n)) = none := by
        have h3 := assoc_map_override n e kv.1
        rw [hae] at h3
        cases hx : assoc kv.1 (e.map (overrideKV n))
        · rfl
        · rw [hx] at h3; simp at h3
      cases hy : assoc kv.1 (n.filter (fun kv => (assoc kv.1 e).isNone)) with
      | none => rw [hy] at h1; simp at h1
      | some w => simp [dictUpdate, assoc_append, h2, hy]
  calc dictUpdate (dictUpdate e n) n
      = (dictUpdate e n).map (overrideKV n) ++
          n.filter (fun kv => (assoc kv.1 (dictUpdate e n)).isNone) := rfl
    _ = dictUpdate e n ++ [] := by rw [hmap, hfilt]
    _ = dictUpdate e n := by simp

/-- C6: `END` of an `IMPORTUSER` session parses the payload, reads the
existing target document (empty mapping when absent or unreadable),
merges the payload over it with new values winning, writes the merged
document back and refreshes the caches; re-running the same merge session
over the written file produces the same document (idempotence), given the
codec round-trips the written document. -/
theorem c6_importuser_merge_idempotent (env : Env) (st : St) (n e : Obj)
    (hm : st.mode = some Mode.merge_user)
    (hnew : env.loads (joinNL st.file_lines) = Except.ok (Json.obj n))
    (hn : (n.map Prod.fst).Nodup)
    (hex : readExisting env st = Json.obj e)
    (hrt : env.loads (env.dumps (Json.obj (dictUpdate e n)) ++ ['\n']) =
      Except.ok (Json.obj (dictUpdate e n))) :
    processLineCore env st (chars "END") =
      Except.ok ⟨{ st with
          fs := fsWrite st.fs st.filename
            (env.dumps (Json.obj (dictUpdate e n)) ++ ['\n'])
          user_presets := Json.obj (dictUpdate e n)
          preset_colors := (assoc (chars "NewUserPreset1")
            (dictUpdate e n)).getD (Json.obj [])
          mode := none
          file_lines := [] },
        [chars "✅ Merged into " ++ st.filename ++ chars "\n"], HaltK.cont⟩ ∧
    dictUpdate (dictUpdate e n) n = dictUpdate e n ∧
    processLineCore env
        { st with
            fs := fsWrite st.fs st.filename
              (env.dumps (Json.obj (dictUpdate e n)) ++ ['\n'])
            user_presets := Json.obj (dictUpdate e n)
            preset_colors := (assoc (chars "NewUserPreset1")
              (dictUpdate e n)).getD (Json.obj []) }
        (chars "END") =
      Except.ok ⟨{ st with
          fs := fsWrite
            (fsWrite st.fs st.filename
              (env.dumps (Json.obj (dictUpdate e n)) ++ ['\n']))
            st.filename (env.dumps (Json.obj (dictUpdate e n)) ++ ['\n'])
          user_presets := Json.obj (dictUpdate e n)
          preset_colors := (assoc (chars "NewUserPreset1")
            (dictUpdate e n)).getD (Json.obj [])
          mode := none
          file_lines := [] },
        [chars "✅ Merged into " ++ st.filename ++ chars "\n"], HaltK.cont⟩ ∧
    fsRead
        (fsWrite
          (fsWrite st.fs st.filename
            (env.dumps (Json.obj (dictUpdate e n)) ++ ['\n']))
          st.filename (env.dumps (Json.obj (dictUpdate e n)) ++ ['\n']))
        st.filename =
      fsRead (fsWrite st.fs st.filename
        (env.dumps (Json.obj (dictUpdate e n)) ++ ['\n'])) st.filename := by
  have hidem := dictUpdate_idem e n hn
  refine ⟨?_, hidem, ?_, ?_⟩
  · rw [plc_end_merge env st hm]
    simp [mergeEndCmd, hnew, hex, pyUpdate, jsonGetD]
  · set s2 : St :=
      { st with
          fs := fsWrite st.fs st.filename
            (env.dumps (Json.obj (dictUpdate e n)) ++ ['\n'])
          user_presets := Json.obj (dictUpdate e n)
          preset_colors := (assoc (chars "NewUserPreset1")
            (dictUpdate e n)).getD (Json.obj []) } with hs2
    rw [plc_end_merge env s2 (show s2.mode = some Mode.merge_user from hm)]
    have hre : readExisting env s2 = Json.obj (dictUpdate e n) := by
      rw [hs2]
      simp [readExisting, fsRead, fsWrite, assoc, hrt]
    have hfl : env.loads (joinNL s2.file_lines) = Except.ok (Json.obj n) := hnew
    simp [mergeEndCmd, hfl, hre, pyUpdate, jsonGetD, hidem, hs2]
  · simp [fsRead, fsWrite, assoc]

/-- Witness for C6 over the empty existing document. -/
theorem c6_importuser_merge_idempotent_w :
    stC6.mode = some Mode.merge_user ∧ (objC6.map Prod.fst).Nodup ∧
      dictUpdate (dictUpdate [] objC6) objC6 = dictUpdate [] objC6 :=
  ⟨rfl, by decide,
    (c6_importuser_merge_idempotent envC6 stC6 objC6 [] rfl rfl (by decide)
      rfl rfl).2.1⟩

end BGG

